import Mathlib

/-!
Shallow embedding of `src/js/beam-analysis.js`.

The source file contains two variants of the beam-analysis module.  Their
`Material`, `Beam` and `BeamAnalysis` dispatcher code is identical, as is the
`simplySupported` analyzer, so those are embedded once.  The two
`twoSpanUnequal` analyzers differ and are embedded separately: the first
variant (top half of the file) lives at top level, the second variant (bottom
half) in the `VariantB` namespace.

JavaScript numbers are modelled by `ℚ` (division by zero yields `0` in `ℚ`;
every concrete instance used below keeps denominators nonzero).  The external
document field read by `floatVal` is modelled by an explicit environment
`Env`.  Each `get*Equation` method receives the environment current at
construction time, and the evaluator it returns receives the environment
current at each invocation, so reads of the external field at either moment
are represented faithfully.
-/

/-- Registry key of the simply supported condition. -/
def ssKey : String := "simply-supported"

/-- Registry key of the two-span-unequal condition. -/
def tsuKey : String := "two-span-unequal"

/-- A condition string that is in neither registry entry. -/
def unknownKey : String := "unknown"

/-- Message of the error thrown on an unregistered condition. -/
def invalidMsg : String := "Invalid condition"

/-- Material name used by concrete instances below. -/
def matName : String := "steel"

/-- Beam material specification: a name and the `EI` entry of its
`properties` map (the only property the analyzers read). -/
structure Material where
  name : String
  EI : ℚ

/-- A beam: primary span, secondary span and material. -/
structure Beam where
  primarySpan : ℚ
  secondarySpan : ℚ
  material : Material

/-- The load argument.  JavaScript passes one untyped value that the
analyzers use in two ways: as a bare scalar (`const w = load`) or as a record
destructured into `{ w1, w2, R1, R2, R3 }`.  The embedding carries all the
properties a caller can supply on one record: `w` is the numeric value of the
load when it is used as a scalar, the remaining fields are the record
properties. -/
structure Load where
  w : ℚ
  w1 : ℚ
  w2 : ℚ
  R1 : ℚ
  R2 : ℚ
  R3 : ℚ

/-- A sample point `{x, y}` returned by an equation. -/
structure Point where
  x : ℚ
  y : ℚ

/-- External mutable state visible to the analyzers: the value of the
document field that `floatVal` reads under the id string j2. -/
structure Env where
  j2 : ℚ

/-- JavaScript coercion of a Boolean to a Number (`true ↦ 1`, `false ↦ 0`),
as performed on the inner comparison of the chained expression
`L1 < x < L`. -/
def jsBool (b : Prop) [Decidable b] : ℚ := if b then 1 else 0

/-- Numeric value of JavaScript `toFixed(2)`: the result rounded to the
nearest multiple of `1/100`, ties to the larger value. -/
def toFixed2 (q : ℚ) : ℚ := (round (q * 100) : ℤ) / 100

/-- An equation as sampled by the caller: the environment current at the
invocation, then the position `x`. -/
def Eqn : Type := Env → ℚ → Point

/- ===== simplySupported analyzer (identical in both source variants) ===== -/

/-- `simplySupported.getDeflectionEquation`: closes over `primarySpan` and
`EI`; evaluator returns `y = -((w*x)/(24*EI))*(L^3 - 2*L*x^2 + x^3)*1000`
for `0 ≤ x ≤ L`, else `0`. -/
def simplySupported.getDeflectionEquation (_cenv : Env) (beam : Beam) (load : Load) : Eqn :=
  let primarySpan := beam.primarySpan
  let EI := beam.material.EI
  fun _env x =>
    let L := primarySpan
    let w := load.w
    let y : ℚ :=
      if 0 ≤ x ∧ x ≤ L then
        -((w * x) / (24 * EI)) * (L ^ 3 - 2 * L * x ^ 2 + x ^ 3) * 1000
      else 0
    ⟨x, y⟩

/-- `simplySupported.getBendingMomentEquation`: evaluator returns
`M = -((w*x)/2)*(L - x)` for `0 ≤ x ≤ L`, else `0`. -/
def simplySupported.getBendingMomentEquation (_cenv : Env) (beam : Beam) (load : Load) : Eqn :=
  let primarySpan := beam.primarySpan
  fun _env x =>
    let L := primarySpan
    let w := load.w
    let M : ℚ :=
      if 0 ≤ x ∧ x ≤ L then
        -((w * x) / 2) * (L - x)
      else 0
    ⟨x, M⟩

/-- `simplySupported.getShearForceEquation`: evaluator returns
`V = w*((L/2) - x)` for `0 ≤ x ≤ L`, else `0`. -/
def simplySupported.getShearForceEquation (_cenv : Env) (beam : Beam) (load : Load) : Eqn :=
  let primarySpan := beam.primarySpan
  fun _env x =>
    let L := primarySpan
    let w := load.w
    let V : ℚ :=
      if 0 ≤ x ∧ x ≤ L then
        w * ((L / 2) - x)
      else 0
    ⟨x, V⟩

/- ===== twoSpanUnequal analyzer, first source variant ===== -/

/-- Interior support moment of the scalar-load two-span path:
`M1 = ((w*L2^3 + w*L1^3)/(8*(L1+L2))) * -1`. -/
def M1 (w L1 L2 : ℚ) : ℚ := (w * L2 ^ 3 + w * L1 ^ 3) / (8 * (L1 + L2)) * (-1)

/-- End reaction `R1 = M1/L1 + (w*L1)/2`. -/
def R1 (w L1 L2 : ℚ) : ℚ := M1 w L1 L2 / L1 + w * L1 / 2

/-- Far-end reaction `R3 = M1/L2 + (w*L2)/2`. -/
def R3 (w L1 L2 : ℚ) : ℚ := M1 w L1 L2 / L2 + w * L2 / 2

/-- Interior reaction `R2 = w*L1 + w*L2 - R1 - R3`. -/
def R2 (w L1 L2 : ℚ) : ℚ := w * L1 + w * L2 - R1 w L1 L2 - R3 w L1 L2

/-- `twoSpanUnequal.getDeflectionEquation`, first variant.  The evaluator
reads `j2 = floatVal` at each invocation (call-time environment), recomputes
the reactions, and branches on `x <= L1`, then on the guard `L1 <= L1 + L2`
exactly as written in the source. -/
def twoSpanUnequal.getDeflectionEquation (_cenv : Env) (beam : Beam) (load : Load) : Eqn :=
  fun env x =>
    let j2 := env.j2
    let L1 := beam.primarySpan
    let L2 := beam.secondarySpan
    let w := load.w
    let r1 := R1 w L1 L2
    let r2 := R2 w L1 L2
    let EI := beam.material.EI / 1000000000
    let V : ℚ :=
      if x ≤ L1 then
        x / 24 * (EI / 1000 ^ 3) *
          (4 * r1 * x ^ 2 - w * x ^ 3 + w * L1 ^ 3 - 4 * r1 * L1 ^ 2) * (1000 * j2)
      else if L1 ≤ L1 + L2 then
        (r1 * x / 6 * (x ^ 2 - L1 ^ 2) +
            r2 * x / 6 * (x ^ 2 - 3 * L1 * x + 3 * L1 ^ 2) -
            r2 * L1 ^ 3 / 6 - w * x / 24 * (x ^ 3 - L1 ^ 3)) *
          (1 / (EI / 1000 ^ 3)) * (1000 * j2)
      else 0
    ⟨x, V⟩

/-- First-segment bending-moment expression `R1*x - (w1*x^2)/2` of the
structured-load two-span path. -/
def twoSpanUnequal.momentSeg1 (r1 w1 x : ℚ) : ℚ := r1 * x - w1 * x ^ 2 / 2

/-- Second-segment bending-moment expression
`R1*x + R2*x2 - (w1*L1^2)/2 - (w2*x2^2)/2` with `x2 = x - L1`. -/
def twoSpanUnequal.momentSeg2 (r1 r2 w1 w2 L1 x : ℚ) : ℚ :=
  let x2 := x - L1
  r1 * x + r2 * x2 - w1 * L1 ^ 2 / 2 - w2 * x2 ^ 2 / 2

/-- `twoSpanUnequal.getBendingMomentEquation`, first variant (structured
load).  The source destructures the span lengths from the beam under the
names L1 and L2; per the spec's data model these are the beam's primary and
secondary spans. -/
def twoSpanUnequal.getBendingMomentEquation (_cenv : Env) (beam : Beam) (load : Load) : Eqn :=
  let L1 := beam.primarySpan
  let L2 := beam.secondarySpan
  let w1 := load.w1
  let w2 := load.w2
  let r1 := load.R1
  let r2 := load.R2
  fun _env x =>
    let M : ℚ :=
      if x = 0 then 0
      else if 0 < x ∧ x ≤ L1 then twoSpanUnequal.momentSeg1 r1 w1 x
      else if L1 < x ∧ x ≤ L1 + L2 then twoSpanUnequal.momentSeg2 r1 r2 w1 w2 L1 x
      else if L1 + L2 < x then 0
      else 0
    ⟨x, toFixed2 M⟩

/-- `twoSpanUnequal.getShearForceEquation`, first variant (scalar load).
`j2` and `EI` are computed at construction exactly as in the source but are
never used by any branch.  The fifth guard is the chained comparison
`L1 < x < L`, which JavaScript evaluates as `(L1 < x) < L` with the Boolean
coerced to `0` or `1`. -/
def twoSpanUnequal.getShearForceEquation (cenv : Env) (beam : Beam) (load : Load) : Eqn :=
  let _j2 := cenv.j2 * 1000
  let L1 := beam.primarySpan
  let L2 := beam.secondarySpan
  let w := load.w
  let r1 := R1 w L1 L2
  let r2 := R2 w L1 L2
  let _EI := beam.material.EI
  let L := L1 + L2
  fun _env x =>
    let V : ℚ :=
      if x = 0 then r1
      else if x < L1 then r1 - w * x
      else if x = L1 then r1 - w * L1
      else if x = L2 then r1 + r2 - w * L1
      else if jsBool (L1 < x) < L then r1 + r2 - w * x
      else if x = L then r1 + r2 - w * L
      else 0
    ⟨x, V⟩

/-- Index of the branch the first-variant shear-force evaluator executes at
`x`: the guards of its if/else chain, in source order (`0` for `x == 0` up
to `5` for `x == L`, `6` for the implicit final else). -/
def twoSpanUnequal.shearForceBranch (L1 L2 x : ℚ) : ℕ :=
  if x = 0 then 0
  else if x < L1 then 1
  else if x = L1 then 2
  else if x = L2 then 3
  else if jsBool (L1 < x) < L1 + L2 then 4
  else if x = L1 + L2 then 5
  else 6

/- ===== twoSpanUnequal analyzer, second source variant ===== -/

namespace VariantB

/-- `twoSpanUnequal.getDeflectionEquation`, second variant.  Its body is the
structured-load shear-force computation: `R1` at `x = 0`, `R1 - w1*x` on the
first span, `R1 + R2 - w1*L1 - w2*x2` on the second, and the total-balance
value beyond; the result is passed through `toFixed(2)`.  It reads no
stiffness property of the material. -/
def twoSpanUnequal.getDeflectionEquation (_cenv : Env) (beam : Beam) (load : Load) : Eqn :=
  let L1 := beam.primarySpan
  let L2 := beam.secondarySpan
  let w1 := load.w1
  let w2 := load.w2
  let r1 := load.R1
  let r2 := load.R2
  let r3 := load.R3
  fun _env x =>
    let V : ℚ :=
      if x = 0 then r1
      else if 0 < x ∧ x ≤ L1 then r1 - w1 * x
      else if L1 < x ∧ x ≤ L1 + L2 then
        let x2 := x - L1
        r1 + r2 - w1 * L1 - w2 * x2
      else if L1 + L2 < x then r1 + r2 + r3 - w1 * L1 - w2 * L2
      else 0
    ⟨x, toFixed2 V⟩

/-- `twoSpanUnequal.getBendingMomentEquation`, second variant: identical to
the first variant's structured-load bending moment. -/
def twoSpanUnequal.getBendingMomentEquation (_cenv : Env) (beam : Beam) (load : Load) : Eqn :=
  let L1 := beam.primarySpan
  let L2 := beam.secondarySpan
  let w1 := load.w1
  let w2 := load.w2
  let r1 := load.R1
  let r2 := load.R2
  fun _env x =>
    let M : ℚ :=
      if x = 0 then 0
      else if 0 < x ∧ x ≤ L1 then r1 * x - w1 * x ^ 2 / 2
      else if L1 < x ∧ x ≤ L1 + L2 then
        let x2 := x - L1
        r1 * x + r2 * x2 - w1 * L1 ^ 2 / 2 - w2 * x2 ^ 2 / 2
      else if L1 + L2 < x then 0
      else 0
    ⟨x, toFixed2 M⟩

/-- `twoSpanUnequal.getShearForceEquation`, second variant (structured
load): `R1` at `x = 0`, `R1 - (w1*x)` on the first span,
`R1 + R2 - (w1*L1) - (w2*(x - L1))` on the second,
`R1 + R2 + R3 - (w1*L1) - (w2*L2)` beyond; result through `toFixed(2)`. -/
def twoSpanUnequal.getShearForceEquation (_cenv : Env) (beam : Beam) (load : Load) : Eqn :=
  let L1 := beam.primarySpan
  let L2 := beam.secondarySpan
  let w1 := load.w1
  let w2 := load.w2
  let r1 := load.R1
  let r2 := load.R2
  let r3 := load.R3
  fun _env x =>
    let V : ℚ :=
      if x = 0 then r1
      else if 0 < x ∧ x ≤ L1 then r1 - w1 * x
      else if L1 < x ∧ x ≤ L1 + L2 then r1 + r2 - w1 * L1 - w2 * (x - L1)
      else if L1 + L2 < x then r1 + r2 + r3 - w1 * L1 - w2 * L2
      else 0
    ⟨x, toFixed2 V⟩

end VariantB

/- ===== BeamAnalysis dispatcher (identical in both source variants) ===== -/

/-- An analyzer of the registry: the three equation constructors.  Each
receives the environment current when the `BeamAnalysis` method runs
(construction time) and yields an `Eqn` sampled later. -/
structure Analyzer where
  getDeflectionEquation : Env → Beam → Load → Eqn
  getBendingMomentEquation : Env → Beam → Load → Eqn
  getShearForceEquation : Env → Beam → Load → Eqn

/-- The analyzer stored under the simply-supported key. -/
def simplySupportedAnalyzer : Analyzer :=
  ⟨simplySupported.getDeflectionEquation,
    simplySupported.getBendingMomentEquation,
    simplySupported.getShearForceEquation⟩

/-- The analyzer stored under the two-span-unequal key (first variant). -/
def twoSpanUnequalAnalyzer : Analyzer :=
  ⟨twoSpanUnequal.getDeflectionEquation,
    twoSpanUnequal.getBendingMomentEquation,
    twoSpanUnequal.getShearForceEquation⟩

/-- A thrown JavaScript exception: `Error(msg)` carrying its message, or the
`TypeError` raised when a looked-up value is called but is not a function. -/
inductive JsError where
  | error : String → JsError
  | typeError : JsError

/-- Property names every object literal inherits from the base object
prototype.  Looking any of these up on the registry yields a truthy value (a
built-in function, or the prototype object itself), not an analyzer. -/
def protoProps : List String :=
  [ "constructor", "hasOwnProperty", "isPrototypeOf", "propertyIsEnumerable",
    "toLocaleString", "toString", "valueOf", "__proto__",
    "__defineGetter__", "__defineSetter__", "__lookupGetter__", "__lookupSetter__" ]

/-- Result of the dynamic property lookup `this.analyzer[condition]` on the
registry object literal: one of the two analyzers stored under the object's
own keys, a truthy value inherited from the base object prototype, or
`undefined`. -/
inductive LookupValue where
  | analyzer : Analyzer → LookupValue
  | inherited : LookupValue
  | missing : LookupValue

/-- The registry lookup `this.analyzer[condition]`: the object literal holds
the two analyzers under its own keys; any other property name walks the
prototype chain, so the base-prototype names yield a truthy inherited value
and every remaining string yields `undefined`. -/
def BeamAnalysis.analyzer (condition : String) : LookupValue :=
  if condition = ssKey then .analyzer simplySupportedAnalyzer
  else if condition = tsuKey then .analyzer twoSpanUnequalAnalyzer
  else if condition ∈ protoProps then .inherited
  else .missing

/-- The bundle `{beam, load, equation}` returned on success. -/
structure AnalysisResult where
  beam : Beam
  load : Load
  equation : Eqn

/-- `BeamAnalysis.getDeflection`: look the condition up in the registry.  A
real analyzer passes the truthiness test and yields the bundle with its
deflection equation.  An inherited prototype value also passes the
truthiness test, but it has no `getDeflectionEquation` method, so the call
on it throws a `TypeError`.  `undefined` fails the test and the
invalid-condition `Error` is thrown. -/
def BeamAnalysis.getDeflection (cenv : Env) (beam : Beam) (load : Load)
    (condition : String) : Except JsError AnalysisResult :=
  match BeamAnalysis.analyzer condition with
  | .analyzer a => .ok ⟨beam, load, a.getDeflectionEquation cenv beam load⟩
  | .inherited => .error .typeError
  | .missing => .error (.error invalidMsg)

/-- `BeamAnalysis.getBendingMoment`: same dispatch with the bending-moment
equation. -/
def BeamAnalysis.getBendingMoment (cenv : Env) (beam : Beam) (load : Load)
    (condition : String) : Except JsError AnalysisResult :=
  match BeamAnalysis.analyzer condition with
  | .analyzer a => .ok ⟨beam, load, a.getBendingMomentEquation cenv beam load⟩
  | .inherited => .error .typeError
  | .missing => .error (.error invalidMsg)

/-- `BeamAnalysis.getShearForce`: same dispatch with the shear-force
equation. -/
def BeamAnalysis.getShearForce (cenv : Env) (beam : Beam) (load : Load)
    (condition : String) : Except JsError AnalysisResult :=
  match BeamAnalysis.analyzer condition with
  | .analyzer a => .ok ⟨beam, load, a.getShearForceEquation cenv beam load⟩
  | .inherited => .error .typeError
  | .missing => .error (.error invalidMsg)

/- ===== Concrete instances used by witnesses and counterexamples ===== -/

/-- Environment with the external field at 1. -/
def envOne : Env := ⟨1⟩

/-- Environment with the external field at 2. -/
def envTwo : Env := ⟨2⟩

/-- Simply-supported example beam: L = 4, EI = 5000. -/
def beamSS : Beam := ⟨4, 0, ⟨matName, 5000⟩⟩

/-- Scalar load w = 10. -/
def loadSS : Load := ⟨10, 0, 0, 0, 0, 0⟩

/-- Two-span example beam: L1 = 1, L2 = 1, EI = 10^18. -/
def beamTS : Beam := ⟨1, 1, ⟨matName, 10 ^ 18⟩⟩

/-- Scalar load w = 1. -/
def loadOne : Load := ⟨1, 0, 0, 0, 0, 0⟩

/-- Two-span example beam: L1 = 2, L2 = 3, EI = 1000. -/
def beamTS2 : Beam := ⟨2, 3, ⟨matName, 1000⟩⟩

/-- Structured load: w1 = 2, w2 = 3, R1 = 5, R2 = 7, R3 = 11 (scalar slot 0). -/
def loadStruct : Load := ⟨0, 2, 3, 5, 7, 11⟩

/-- Beam with the same spans as `beamTS2` but a different stiffness. -/
def beamTS2stiff : Beam := ⟨2, 3, ⟨matName, 777⟩⟩

/-- A prototype-inherited property name used as a condition string. -/
def ctorKey : String := "constructor"

/-- A second prototype-inherited property name used as a condition string. -/
def toStrKey : String := "toString"

/- ===== Claims ===== -/

/-- C2: for the simply-supported condition, the deflection evaluator returns
`y = -((w*x)/(24*EI))*(L^3 - 2*L*x^2 + x^3)*1000` when `0 ≤ x ≤ L`, and
`y = 0` otherwise. -/
theorem c2_ss_deflection_formula (cenv env : Env) (beam : Beam) (load : Load) (x : ℚ) :
    (0 ≤ x → x ≤ beam.primarySpan →
      (simplySupported.getDeflectionEquation cenv beam load env x).y =
        -((load.w * x) / (24 * beam.material.EI)) *
          (beam.primarySpan ^ 3 - 2 * beam.primarySpan * x ^ 2 + x ^ 3) * 1000) ∧
    (¬(0 ≤ x ∧ x ≤ beam.primarySpan) →
      (simplySupported.getDeflectionEquation cenv beam load env x).y = 0) := by
  constructor
  · intro h0 hL
    simp [simplySupported.getDeflectionEquation, h0, hL]
  · intro h
    simp [simplySupported.getDeflectionEquation, h]

/-- C2 witness: at L = 4, EI = 5000, w = 10 the formula holds at x = 1 and
the evaluator vanishes at x = 5. -/
theorem c2_ss_deflection_formula_witness :
    (simplySupported.getDeflectionEquation envOne beamSS loadSS envOne 1).y =
      -((10 * 1) / (24 * 5000)) * (4 ^ 3 - 2 * 4 * 1 ^ 2 + 1 ^ 3) * 1000 ∧
    (simplySupported.getDeflectionEquation envOne beamSS loadSS envOne 5).y = 0 := by
  constructor
  · have h := (c2_ss_deflection_formula envOne envOne beamSS loadSS 1).1
      (by norm_num) (by norm_num [beamSS])
    simpa [beamSS, loadSS] using h
  · exact (c2_ss_deflection_formula envOne envOne beamSS loadSS 5).2 (by norm_num [beamSS])

/-- C5: the reactions derived on the scalar-load two-span path satisfy
static equilibrium, `R1 + R2 + R3 = w*L1 + w*L2`, for `L1 > 0`, `L2 > 0`. -/
theorem c5_reactions_equilibrium (w L1 L2 : ℚ) (h1 : 0 < L1) (h2 : 0 < L2) :
    R1 w L1 L2 + R2 w L1 L2 + R3 w L1 L2 = w * L1 + w * L2 := by
  unfold R2
  ring

/-- C5 witness: equilibrium at w = 1, L1 = 2, L2 = 3. -/
theorem c5_reactions_equilibrium_witness :
    (0 : ℚ) < 2 ∧ (0 : ℚ) < 3 ∧ R1 1 2 3 + R2 1 2 3 + R3 1 2 3 = 1 * 2 + 1 * 3 :=
  ⟨by norm_num, by norm_num, c5_reactions_equilibrium 1 2 3 (by norm_num) (by norm_num)⟩

/-- C6: the structured-load two-span bending moment is continuous at
`x = L1`: the first-segment expression at `x = L1` equals the second-segment
expression at `x = L1` (that is, `x2 = 0`). -/
theorem c6_moment_continuous_at_interior_support (r1 r2 w1 w2 L1 L2 : ℚ)
    (h1 : 0 < L1) (h2 : 0 < L2) :
    twoSpanUnequal.momentSeg1 r1 w1 L1 =
      twoSpanUnequal.momentSeg2 r1 r2 w1 w2 L1 L1 := by
  simp only [twoSpanUnequal.momentSeg1, twoSpanUnequal.momentSeg2]
  ring

/-- C6 witness: continuity at R1 = 5, R2 = 7, w1 = 2, w2 = 3, L1 = 2,
L2 = 3. -/
theorem c6_moment_continuous_at_interior_support_witness :
    (0 : ℚ) < 2 ∧ (0 : ℚ) < 3 ∧
      twoSpanUnequal.momentSeg1 5 2 2 = twoSpanUnequal.momentSeg2 5 7 2 3 2 2 :=
  ⟨by norm_num, by norm_num,
    c6_moment_continuous_at_interior_support 5 7 2 3 2 3 (by norm_num) (by norm_num)⟩

/-- C7: the simply-supported bending moment is symmetric about midspan,
`M(x) = M(L - x)` for `0 ≤ x ≤ L`. -/
theorem c7_ss_moment_symmetric (cenv env : Env) (beam : Beam) (load : Load) (x : ℚ)
    (h0 : 0 ≤ x) (hL : x ≤ beam.primarySpan) :
    (simplySupported.getBendingMomentEquation cenv beam load env x).y =
      (simplySupported.getBendingMomentEquation cenv beam load env
        (beam.primarySpan - x)).y := by
  have h0' : 0 ≤ beam.primarySpan - x := by linarith
  have hL' : beam.primarySpan - x ≤ beam.primarySpan := by linarith
  simp only [simplySupported.getBendingMomentEquation]
  rw [if_pos ⟨h0, hL⟩, if_pos ⟨h0', hL'⟩]
  ring

/-- C7 witness: symmetry at L = 4, w = 10, x = 1. -/
theorem c7_ss_moment_symmetric_witness :
    (simplySupported.getBendingMomentEquation envOne beamSS loadSS envOne 1).y =
      (simplySupported.getBendingMomentEquation envOne beamSS loadSS envOne
        (beamSS.primarySpan - 1)).y :=
  c7_ss_moment_symmetric envOne envOne beamSS loadSS 1 (by norm_num) (by norm_num [beamSS])

/-- C8: for the simply-supported condition all three evaluators return
`y = 0` for every `x` strictly outside `[0, L]`. -/
theorem c8_ss_zero_outside_span (cenv env : Env) (beam : Beam) (load : Load) (x : ℚ)
    (h : x < 0 ∨ beam.primarySpan < x) :
    (simplySupported.getDeflectionEquation cenv beam load env x).y = 0 ∧
    (simplySupported.getBendingMomentEquation cenv beam load env x).y = 0 ∧
    (simplySupported.getShearForceEquation cenv beam load env x).y = 0 := by
  have hno : ¬(0 ≤ x ∧ x ≤ beam.primarySpan) := by
    rcases h with h | h
    · exact fun hc => absurd hc.1 (not_le.2 h)
    · exact fun hc => absurd hc.2 (not_le.2 h)
  refine ⟨?_, ?_, ?_⟩ <;>
    simp [simplySupported.getDeflectionEquation,
      simplySupported.getBendingMomentEquation,
      simplySupported.getShearForceEquation, hno]

/-- C8 witness: at L = 4 and x = 5 all three evaluators vanish. -/
theorem c8_ss_zero_outside_span_witness :
    (simplySupported.getDeflectionEquation envOne beamSS loadSS envOne 5).y = 0 ∧
    (simplySupported.getBendingMomentEquation envOne beamSS loadSS envOne 5).y = 0 ∧
    (simplySupported.getShearForceEquation envOne beamSS loadSS envOne 5).y = 0 :=
  c8_ss_zero_outside_span envOne envOne beamSS loadSS 5 (Or.inr (by norm_num [beamSS]))

/-- C1 counterexample: the condition string "constructor" is registered
under neither key, yet none of the three operations fails with the
invalid-condition error: the registry lookup walks the prototype chain and
returns the truthy inherited constructor property, the success branch is
taken, and the method call on that value throws a `TypeError` instead. -/
theorem c1_inherited_key_not_invalid_condition :
    ctorKey ≠ ssKey ∧ ctorKey ≠ tsuKey ∧
    BeamAnalysis.getDeflection envOne beamSS loadSS ctorKey = .error .typeError ∧
    BeamAnalysis.getBendingMoment envOne beamSS loadSS ctorKey = .error .typeError ∧
    BeamAnalysis.getShearForce envOne beamSS loadSS ctorKey = .error .typeError ∧
    JsError.typeError ≠ JsError.error invalidMsg := by
  refine ⟨by decide, by decide, ?_, ?_, ?_, fun h => JsError.noConfusion h⟩ <;>
    simp [BeamAnalysis.getDeflection, BeamAnalysis.getBendingMoment,
      BeamAnalysis.getShearForce, BeamAnalysis.analyzer,
      ctorKey, ssKey, tsuKey, protoProps]

/-- C1 amended: on a condition string that is neither a registered key nor a
property name inherited from the base object prototype, each of the three
operations fails with the invalid-condition error and returns no partial
result; on an inherited prototype property name each operation takes the
success branch and fails with a `TypeError` instead; on the two registered
keys each operation succeeds and returns the `{beam, load, equation}` bundle
built from the matching analyzer. -/
theorem c1_dispatch_registry (cenv : Env) (beam : Beam) (load : Load)
    (condition pcond : String)
    (h1 : condition ≠ ssKey) (h2 : condition ≠ tsuKey) (h3 : condition ∉ protoProps)
    (hp : pcond ∈ protoProps) :
    BeamAnalysis.getDeflection cenv beam load condition = .error (.error invalidMsg) ∧
    BeamAnalysis.getBendingMoment cenv beam load condition = .error (.error invalidMsg) ∧
    BeamAnalysis.getShearForce cenv beam load condition = .error (.error invalidMsg) ∧
    BeamAnalysis.getDeflection cenv beam load pcond = .error .typeError ∧
    BeamAnalysis.getBendingMoment cenv beam load pcond = .error .typeError ∧
    BeamAnalysis.getShearForce cenv beam load pcond = .error .typeError ∧
    BeamAnalysis.getDeflection cenv beam load ssKey =
      .ok ⟨beam, load, simplySupported.getDeflectionEquation cenv beam load⟩ ∧
    BeamAnalysis.getBendingMoment cenv beam load ssKey =
      .ok ⟨beam, load, simplySupported.getBendingMomentEquation cenv beam load⟩ ∧
    BeamAnalysis.getShearForce cenv beam load ssKey =
      .ok ⟨beam, load, simplySupported.getShearForceEquation cenv beam load⟩ ∧
    BeamAnalysis.getDeflection cenv beam load tsuKey =
      .ok ⟨beam, load, twoSpanUnequal.getDeflectionEquation cenv beam load⟩ ∧
    BeamAnalysis.getBendingMoment cenv beam load tsuKey =
      .ok ⟨beam, load, twoSpanUnequal.getBendingMomentEquation cenv beam load⟩ ∧
    BeamAnalysis.getShearForce cenv beam load tsuKey =
      .ok ⟨beam, load, twoSpanUnequal.getShearForceEquation cenv beam load⟩ := by
  have hreg : BeamAnalysis.analyzer condition = .missing := by
    simp [BeamAnalysis.analyzer, h1, h2, h3]
  have hp1 : pcond ≠ ssKey := by
    rintro rfl
    revert hp
    decide
  have hp2 : pcond ≠ tsuKey := by
    rintro rfl
    revert hp
    decide
  have hpreg : BeamAnalysis.analyzer pcond = .inherited := by
    simp [BeamAnalysis.analyzer, hp1, hp2, hp]
  refine ⟨?_, ?_, ?_, ?_, ?_, ?_, ?_, ?_, ?_, ?_, ?_, ?_⟩
  · simp [BeamAnalysis.getDeflection, hreg]
  · simp [BeamAnalysis.getBendingMoment, hreg]
  · simp [BeamAnalysis.getShearForce, hreg]
  · simp [BeamAnalysis.getDeflection, hpreg]
  · simp [BeamAnalysis.getBendingMoment, hpreg]
  · simp [BeamAnalysis.getShearForce, hpreg]
  all_goals
    simp [BeamAnalysis.getDeflection, BeamAnalysis.getBendingMoment,
      BeamAnalysis.getShearForce, BeamAnalysis.analyzer,
      simplySupportedAnalyzer, twoSpanUnequalAnalyzer, ssKey, tsuKey]

/-- C1 witness: the condition string "unknown" makes all three operations
fail with the invalid-condition error, the inherited name "toString" makes
them fail with a `TypeError`, and the two registered keys make them succeed,
at a concrete beam and load. -/
theorem c1_dispatch_registry_witness :
    BeamAnalysis.getDeflection envOne beamSS loadSS unknownKey =
      .error (.error invalidMsg) ∧
    BeamAnalysis.getBendingMoment envOne beamSS loadSS unknownKey =
      .error (.error invalidMsg) ∧
    BeamAnalysis.getShearForce envOne beamSS loadSS unknownKey =
      .error (.error invalidMsg) ∧
    BeamAnalysis.getDeflection envOne beamSS loadSS toStrKey = .error .typeError ∧
    BeamAnalysis.getBendingMoment envOne beamSS loadSS toStrKey = .error .typeError ∧
    BeamAnalysis.getShearForce envOne beamSS loadSS toStrKey = .error .typeError ∧
    BeamAnalysis.getDeflection envOne beamSS loadSS ssKey =
      .ok ⟨beamSS, loadSS, simplySupported.getDeflectionEquation envOne beamSS loadSS⟩ ∧
    BeamAnalysis.getBendingMoment envOne beamSS loadSS ssKey =
      .ok ⟨beamSS, loadSS, simplySupported.getBendingMomentEquation envOne beamSS loadSS⟩ ∧
    BeamAnalysis.getShearForce envOne beamSS loadSS ssKey =
      .ok ⟨beamSS, loadSS, simplySupported.getShearForceEquation envOne beamSS loadSS⟩ ∧
    BeamAnalysis.getDeflection envOne beamSS loadSS tsuKey =
      .ok ⟨beamSS, loadSS, twoSpanUnequal.getDeflectionEquation envOne beamSS loadSS⟩ ∧
    BeamAnalysis.getBendingMoment envOne beamSS loadSS tsuKey =
      .ok ⟨beamSS, loadSS, twoSpanUnequal.getBendingMomentEquation envOne beamSS loadSS⟩ ∧
    BeamAnalysis.getShearForce envOne beamSS loadSS tsuKey =
      .ok ⟨beamSS, loadSS, twoSpanUnequal.getShearForceEquation envOne beamSS loadSS⟩ :=
  c1_dispatch_registry envOne beamSS loadSS unknownKey toStrKey
    (by decide) (by decide) (by decide) (by decide)

/-- C3: evaluation of the first-variant two-span deflection at the failing
input L1 = 1, L2 = 1, EI = 10^18, w = 1, j2 = 1, x = 3: the position is
beyond L1 + L2 = 2, yet the evaluator takes the second branch (its guard
`L1 <= L1 + L2` always holds) and returns -250/3, not 0. -/
theorem c3_deflection_nonzero_beyond_spans :
    (twoSpanUnequal.getDeflectionEquation envOne beamTS loadOne envOne 3).y = -250 / 3 ∧
    (twoSpanUnequal.getDeflectionEquation envOne beamTS loadOne envOne 3).y ≠ 0 := by
  have hval : (twoSpanUnequal.getDeflectionEquation envOne beamTS loadOne envOne 3).y
      = -250 / 3 := by
    norm_num [twoSpanUnequal.getDeflectionEquation, R1, R2, R3, M1,
      beamTS, loadOne, envOne]
  exact ⟨hval, by rw [hval]; norm_num⟩

/-- C4 counterexample: at L1 = 2, L2 = 3, w = 1, x = 4 the chained-comparison
branch of the first-variant shear-force evaluator IS executed (branch index
4 of the if/else chain) and its assignment `V = R1 + R2 - w*x` produces the
result. -/
theorem c4_chained_branch_executed :
    twoSpanUnequal.shearForceBranch 2 3 4 = 4 ∧
    (twoSpanUnequal.getShearForceEquation envOne beamTS2 loadOne envOne 4).y =
      R1 1 2 3 + R2 1 2 3 - 1 * 4 := by
  constructor
  · norm_num [twoSpanUnequal.shearForceBranch, jsBool]
  · norm_num [twoSpanUnequal.getShearForceEquation, jsBool, R1, R2, R3, M1,
      beamTS2, loadOne, envOne]

/-- C4 amended: the chained-comparison branch is reachable.  JavaScript
evaluates `L1 < x < L` as `(L1 < x) < L` with the Boolean coerced to 0 or 1,
so whenever the earlier branches fail (`x ≠ 0`, `x > L1`, `x ≠ L2`) and
`1 < L1 + L2`, the branch executes and assigns `V = R1 + R2 - w*x`. -/
theorem c4_chained_branch_reachable (cenv env : Env) (beam : Beam) (load : Load) (x : ℚ)
    (hx0 : x ≠ 0) (hgt : beam.primarySpan < x) (hne2 : x ≠ beam.secondarySpan)
    (hsum : 1 < beam.primarySpan + beam.secondarySpan) :
    twoSpanUnequal.shearForceBranch beam.primarySpan beam.secondarySpan x = 4 ∧
    (twoSpanUnequal.getShearForceEquation cenv beam load env x).y =
      R1 load.w beam.primarySpan beam.secondarySpan +
        R2 load.w beam.primarySpan beam.secondarySpan - load.w * x := by
  have hnlt : ¬x < beam.primarySpan := not_lt.2 hgt.le
  have hne1 : x ≠ beam.primarySpan := ne_of_gt hgt
  have hjs : jsBool (beam.primarySpan < x) < beam.primarySpan + beam.secondarySpan := by
    simpa [jsBool, hgt] using hsum
  constructor
  · simp [twoSpanUnequal.shearForceBranch, hx0, hnlt, hne1, hne2, hjs]
  · simp [twoSpanUnequal.getShearForceEquation, hx0, hnlt, hne1, hne2, hjs]

/-- C4 witness: the reachability conditions hold at L1 = 2, L2 = 3, w = 1,
x = 4 and the evaluator returns `R1 + R2 - w*4` there. -/
theorem c4_chained_branch_reachable_witness :
    twoSpanUnequal.shearForceBranch beamTS2.primarySpan beamTS2.secondarySpan 4 = 4 ∧
    (twoSpanUnequal.getShearForceEquation envTwo beamTS2 loadOne envTwo 4).y =
      R1 loadOne.w beamTS2.primarySpan beamTS2.secondarySpan +
        R2 loadOne.w beamTS2.primarySpan beamTS2.secondarySpan - loadOne.w * 4 :=
  c4_chained_branch_reachable envTwo envTwo beamTS2 loadOne 4 (by norm_num)
    (by norm_num [beamTS2]) (by norm_num [beamTS2]) (by norm_num [beamTS2])

/-- C9 counterexample: the first-variant two-span deflection equation reads
the external j2 field at each invocation: the same equation (same beam,
load, construction state) invoked at the identical x under two external
states returns different y, so the result does not depend only on the
declared inputs. -/
theorem c9_deflection_reads_external_state :
    (twoSpanUnequal.getDeflectionEquation envOne beamTS loadOne envOne 3).y ≠
      (twoSpanUnequal.getDeflectionEquation envOne beamTS loadOne envTwo 3).y := by
  have h1 : (twoSpanUnequal.getDeflectionEquation envOne beamTS loadOne envOne 3).y
      = -250 / 3 := by
    norm_num [twoSpanUnequal.getDeflectionEquation, R1, R2, R3, M1,
      beamTS, loadOne, envOne]
  have h2 : (twoSpanUnequal.getDeflectionEquation envOne beamTS loadOne envTwo 3).y
      = -500 / 3 := by
    norm_num [twoSpanUnequal.getDeflectionEquation, R1, R2, R3, M1,
      beamTS, loadOne, envOne, envTwo]
  rw [h1, h2]
  norm_num

/-- C9 amended: every evaluator is a deterministic function of the beam, the
load, x and the external j2 state; every evaluator except the first-variant
two-span deflection is moreover independent of the external state at both
construction and invocation time, so its result depends only on the declared
inputs, and the first-variant two-span deflection is invariant under the
construction-time state. -/
theorem c9_evaluators_deterministic (cenv cenv' env env' : Env) (beam : Beam)
    (load : Load) (x : ℚ) :
    simplySupported.getDeflectionEquation cenv beam load env x =
      simplySupported.getDeflectionEquation cenv' beam load env' x ∧
    simplySupported.getBendingMomentEquation cenv beam load env x =
      simplySupported.getBendingMomentEquation cenv' beam load env' x ∧
    simplySupported.getShearForceEquation cenv beam load env x =
      simplySupported.getShearForceEquation cenv' beam load env' x ∧
    twoSpanUnequal.getBendingMomentEquation cenv beam load env x =
      twoSpanUnequal.getBendingMomentEquation cenv' beam load env' x ∧
    twoSpanUnequal.getShearForceEquation cenv beam load env x =
      twoSpanUnequal.getShearForceEquation cenv' beam load env' x ∧
    VariantB.twoSpanUnequal.getDeflectionEquation cenv beam load env x =
      VariantB.twoSpanUnequal.getDeflectionEquation cenv' beam load env' x ∧
    VariantB.twoSpanUnequal.getBendingMomentEquation cenv beam load env x =
      VariantB.twoSpanUnequal.getBendingMomentEquation cenv' beam load env' x ∧
    VariantB.twoSpanUnequal.getShearForceEquation cenv beam load env x =
      VariantB.twoSpanUnequal.getShearForceEquation cenv' beam load env' x ∧
    twoSpanUnequal.getDeflectionEquation cenv beam load env x =
      twoSpanUnequal.getDeflectionEquation cenv' beam load env x :=
  ⟨rfl, rfl, rfl, rfl, rfl, rfl, rfl, rfl, rfl⟩

/-- C10: in the second variant the two-span deflection evaluator is
pointwise identical to the two-span shear-force evaluator, at every
structured load and position, for any two beams sharing the same spans — in
particular the result never depends on the material stiffness EI. -/
theorem c10_deflectionB_equals_shearB (cenv cenv' env env' : Env) (beam beam' : Beam)
    (load : Load) (x : ℚ)
    (h1 : beam.primarySpan = beam'.primarySpan)
    (h2 : beam.secondarySpan = beam'.secondarySpan) :
    VariantB.twoSpanUnequal.getDeflectionEquation cenv beam load env x =
      VariantB.twoSpanUnequal.getShearForceEquation cenv' beam' load env' x := by
  simp only [VariantB.twoSpanUnequal.getDeflectionEquation,
    VariantB.twoSpanUnequal.getShearForceEquation, h1, h2]

/-- C10 witness: at spans L1 = 2, L2 = 3, structured load
{w1 = 2, w2 = 3, R1 = 5, R2 = 7, R3 = 11} and x = 4, the deflection bundle's
evaluator equals the shear bundle's evaluator even across two different
stiffness values. -/
theorem c10_deflectionB_equals_shearB_witness :
    VariantB.twoSpanUnequal.getDeflectionEquation envOne beamTS2 loadStruct envOne 4 =
      VariantB.twoSpanUnequal.getShearForceEquation envTwo beamTS2stiff loadStruct envTwo 4 :=
  c10_deflectionB_equals_shearB envOne envTwo envOne envTwo beamTS2 beamTS2stiff
    loadStruct 4 (by norm_num [beamTS2, beamTS2stiff]) (by norm_num [beamTS2, beamTS2stiff])
